import Mathlib

/-!
Shallow embedding of `tensorforce/models/model.py` (class `Model`): the
lifecycle checks run by `Model.__init__`, the runtime operations
(`set_session`, `reset`, `get_action`, `update`), the summary emission
policy, and the dependency structure of the distributed worker's combined
update step (`self.optimize`, built at lines 125-130 of the source).

The TensorFlow backend is out of scope for the specification; it is embedded
only through the effects the source wires into the graph: `assign_add` on the
two global counter variables, positional `assign` of global variables onto
local ones, and the control-dependency structure created by `tf.group`.
Variable payloads (parameter tensors, internal-state tensors) are abstracted
as integers; the `int32` counters are embedded as unbounded `Int` (no claim
under study concerns 32-bit wraparound).
-/

/-- What a concrete `Model` subclass declares: the two class attributes
checked by the assertion at line 77 (`None` when the subclass does not
declare them), and the initial values its `create_tf_operations` override
appends to `internal_inits`, one per declared recurrent internal slot (the
base class, lines 198-200, declares none). -/
structure ClassDecl where
  allows_discrete_actions : Option Bool
  allows_continuous_actions : Option Bool
  internal_slot_inits : List Int
deriving DecidableEq, Repr

/-- One declared action: `action.continuous` drives the kind check at
lines 213-221. -/
structure ActionDecl where
  continuous : Bool
deriving DecidableEq, Repr

/-- The configuration fields of `Model.default_config` that the embedded
control flow reads (discount, learning rate, device and the states dict are
consumed only by out-of-scope graph construction and are omitted). -/
structure Config where
  distributed : Bool
  global_model : Bool
  optimizer : Option String
  session : Option Nat
  tf_summary : Option String
  tf_summary_level : Int
  tf_summary_interval : Int
  actions : List ActionDecl
deriving DecidableEq, Repr

/-- The errors the embedded control flow can raise: `AssertionError` sites
are named after the assertion they come from, `TensorForceError` sites after
their message, plus the Python `TypeError`/`AttributeError` reachable in
this module and an opaque backend failure. -/
inductive ModelError where
  /-- line 77: a subclass left `allows_discrete_actions` or
  `allows_continuous_actions` undeclared. -/
  | actionKindsUndeclared
  /-- line 88: a non-distributed config with `global_model` set or a
  preset session. -/
  | standaloneConfigViolation
  /-- line 216: a continuous action requested from a class that does not
  support continuous actions. -/
  | continuousActionsUnsupported
  /-- line 220: a discrete action requested from a class that does not
  support discrete actions. -/
  | discreteActionsUnsupported
  /-- line 118: `assert self.optimizer or (not config.distributed or
  config.global_model)` failed — no optimizer on a distributed worker (the
  assertion passes for every non-distributed instance and for global
  holders). -/
  | optimizerMissing
  /-- line 147: `_init_tf_writer` called with more positional arguments
  than its definition at line 161 accepts. -/
  | initTfWriterTypeError
  /-- line 241: `set_session` called although `self.session` is already
  set. -/
  | sessionAlreadySet
  /-- line 290: `self.increment_global_episode` looked up on an instance
  that never defined it (only workers do, line 130). -/
  | attributeError
  /-- an opaque failure inside `session.run` (backend out of scope). -/
  | backendFailure
deriving DecidableEq, Repr

/-- The observable state of one `Model` instance after a successful
`__init__`, plus the two shared counter variables the instance can reach
(`timestep`/`episode` tf variables, created with initial value 0 at lines
106-107; a worker holds references to its global model's, lines 98-99). -/
structure ModelState where
  distributed : Bool
  global_model : Bool
  /-- whether `self.optimizer` was built (lines 231-238): present exactly
  when `config.optimizer` is not `None`. -/
  hasOptimizer : Bool
  /-- `self.session`, `None` until `set_session` runs (line 82). -/
  session : Option Nat
  /-- whether `self.writer` is set (lines 146, 150, 184). -/
  writerConfigured : Bool
  /-- the shared `timestep` tf variable (line 106). -/
  global_timestep : Int
  /-- the shared `episode` tf variable (line 107). -/
  global_episode : Int
  /-- `self.timestep`, the Python-side call counter (line 153). -/
  timestep : Int
  /-- `self.last_summary_step`; `none` stands for the `-inf` it is set to
  at line 168. -/
  last_summary_step : Option Int
  /-- `self.summary_interval` (line 154). -/
  summary_interval : Int
  /-- `self.internal_inits` (line 200 plus subclass appends). -/
  internal_inits : List Int
deriving DecidableEq, Repr

/-- Line 77: `assert allows_discrete_actions is not None and
allows_continuous_actions is not None`. -/
def assertActionKindsDeclared (decl : ClassDecl) : Except ModelError Unit :=
  if decl.allows_discrete_actions.isSome && decl.allows_continuous_actions.isSome then
    Except.ok ()
  else
    Except.error ModelError.actionKindsUndeclared

/-- Lines 87-89: in non-distributed mode, `assert not config.global_model
and config.session is None` (the graph reset itself is backend state, not
modelled). -/
def assertStandaloneConfig (cfg : Config) : Except ModelError Unit :=
  if !cfg.distributed then
    if !cfg.global_model && cfg.session.isNone then Except.ok ()
    else Except.error ModelError.standaloneConfigViolation
  else
    Except.ok ()

/-- Lines 210-221 of `create_tf_operations`: each declared action must be of
a kind the class supports; Python truthiness makes both `None` and `False`
class attributes unsupported. -/
def checkActions (decl : ClassDecl) : List ActionDecl → Except ModelError Unit
  | [] => Except.ok ()
  | a :: rest =>
    if a.continuous then
      if decl.allows_continuous_actions = some true then checkActions decl rest
      else Except.error ModelError.continuousActionsUnsupported
    else
      if decl.allows_discrete_actions = some true then checkActions decl rest
      else Except.error ModelError.discreteActionsUnsupported

/-- Line 241: `assert self.session is None`, then line 242 stores the
session. -/
def set_session (m : ModelState) (s : Nat) : Except ModelError ModelState :=
  if m.session.isSome then Except.error ModelError.sessionAlreadySet
  else Except.ok { m with session := some s }

/-- Number of parameters after `self` in the definition
`def _init_tf_writer(self, tf_summary_level)` (line 161). -/
def initTfWriterParamCount : Nat := 1

/-- Number of positional arguments after `self` at the call site
`self._init_tf_writer(config.tf_summary_level, True)` (line 147). -/
def initTfWriterCallArgCount : Nat := 2

/-- The instance fields as they stand after the graph-building part of
`__init__` (before the session lines 156-158): counters start at 0 (lines
106-107), `self.session` is `None` (line 82), `self.timestep = 0`
(line 153), `self.summary_interval` from the config (line 154). -/
def mkBaseState (decl : ClassDecl) (cfg : Config) : ModelState :=
  { distributed := cfg.distributed
    global_model := cfg.global_model
    hasOptimizer := cfg.optimizer.isSome
    session := none
    writerConfigured := cfg.tf_summary.isSome
    global_timestep := 0
    global_episode := 0
    timestep := 0
    last_summary_step := none
    summary_interval := cfg.tf_summary_interval
    internal_inits := decl.internal_slot_inits }

/-- The part of `__init__` shared by every instance once the global/local
branching is done: `create_tf_operations` (line 113, embedded as the action
kind checks and the optimizer presence), the optimizer assertion
`assert self.optimizer or (not config.distributed or config.global_model)`
(line 118, failing only for a distributed worker without an optimizer), the
summary branch (lines 144-151, whose call at line 147 passes
`_init_tf_writer` one positional argument too many and therefore raises
`TypeError` whenever `config.tf_summary` is set), and the standalone session
creation (lines 156-158). -/
def constructRest (decl : ClassDecl) (cfg : Config) : Except ModelError ModelState :=
  match checkActions decl cfg.actions with
  | Except.error e => Except.error e
  | Except.ok _ =>
    if !(cfg.optimizer.isSome || (!cfg.distributed || cfg.global_model)) then
      Except.error ModelError.optimizerMissing
    else if cfg.tf_summary.isSome && !(initTfWriterCallArgCount == initTfWriterParamCount) then
      Except.error ModelError.initTfWriterTypeError
    else if !cfg.distributed then
      match set_session (mkBaseState decl cfg) 0 with
      | Except.ok m2 => Except.ok m2
      | Except.error e => Except.error e
    else
      Except.ok (mkBaseState decl cfg)

/-- Lines 93-96: the configuration the worker derives for its global model:
a copy with `optimizer = None` and `global_model = True` (the device change
is backend placement, not modelled; note `tf_summary` is kept). -/
def globalConfigOf (cfg : Config) : Config :=
  { cfg with optimizer := none, global_model := true }

/-- `__init__` for an instance that does not take the worker branch. -/
def constructNonWorker (decl : ClassDecl) (cfg : Config) : Except ModelError ModelState :=
  match assertActionKindsDeclared decl with
  | Except.error e => Except.error e
  | Except.ok _ =>
    match assertStandaloneConfig cfg with
    | Except.error e => Except.error e
    | Except.ok _ => constructRest decl cfg

/-- `Model.__init__` (lines 69-158). A distributed worker (lines 91-100)
first constructs the global model from `globalConfigOf cfg`; since that
configuration has `global_model = True`, the nested instance never takes the
worker branch itself, so its construction is exactly `constructNonWorker`. -/
def construct (decl : ClassDecl) (cfg : Config) : Except ModelError ModelState :=
  match assertActionKindsDeclared decl with
  | Except.error e => Except.error e
  | Except.ok _ =>
    match assertStandaloneConfig cfg with
    | Except.error e => Except.error e
    | Except.ok _ =>
      if cfg.distributed && !cfg.global_model then
        match constructNonWorker decl (globalConfigOf cfg) with
        | Except.error e => Except.error e
        | Except.ok _ => constructRest decl cfg
      else
        constructRest decl cfg

/-- `reset` (lines 244-250): returns `list(self.internal_inits)`, a copy of
the declared initial internal values. -/
def reset (m : ModelState) : List Int :=
  m.internal_inits

/-- What one `session.run` of `get_action`'s fetches yields on success
(payload values are opaque to this module). -/
structure FetchedOutputs where
  actionValues : List Int
  internalValues : List Int
deriving DecidableEq, Repr

/-- `get_action` (lines 252-265). `self.timestep += 1` is the first
statement (line 253); the backend execution at line 261 is opaque and its
outcome is supplied as `run`. Because the increment happens before
`session.run`, a raised backend error propagates with the counter already
advanced: the returned state carries `timestep + 1` in the error case too. -/
def get_action (m : ModelState) (run : Except ModelError FetchedOutputs) :
    ModelState × Except ModelError FetchedOutputs :=
  ({ m with timestep := m.timestep + 1 }, run)

/-- One experience row of a batch: the fields the embedded control flow
reads are the reward feed (its leading dimension gives the batch size fed
into `tf.shape(self.reward)[0]`, line 129) and the terminal flag (lines 130
and 290). -/
structure Row where
  reward : Int
  terminal : Bool
deriving DecidableEq, Repr

/-- `tf.shape(self.reward)[0]` for a fed batch: its number of experience
rows. -/
def batchSize (batch : List Row) : Nat :=
  batch.length

/-- `tf.count_nonzero(input_tensor=self.terminal, dtype=tf.int32)` for a fed
batch (line 130): the number of rows whose terminal flag is true. -/
def terminalCount (batch : List Row) : Nat :=
  batch.countP (fun r => r.terminal)

/-- How many times line 290 (`fetches.extend(self.increment_global_episode
for terminal in batch['terminals'] if terminal)`) appends the episode
increment op to the fetch list: once per true terminal flag. -/
def episodeFetchCount (batch : List Row) : Nat :=
  terminalCount batch

/-- Net effect of those fetches on the `episode` variable in one
`session.run`: a graph op executes at most once per run however many times
it is fetched, and each execution of `increment_global_episode` adds
`count_nonzero(terminal)` (line 130). So the variable advances by
`terminalCount batch` when the op is fetched at least once, else by 0. -/
def episodeIncrement (batch : List Row) : Nat :=
  if episodeFetchCount batch > 0 then terminalCount batch else 0

/-- `update` (lines 273-298). Returns immediately when no optimizer is
attached (lines 283-284). For a distributed worker, fetching `self.optimize`
runs the `global_timestep.assign_add(tf.shape(self.reward)[0])` wired into
it at line 129, and line 290 fetches `increment_global_episode` once per
true terminal flag (see `episodeIncrement`). A distributed instance that is
not a worker never defined `increment_global_episode` (line 130 runs only in
the worker branch), so evaluating line 290's generator on such an instance
with a true terminal raises `AttributeError`. A standalone instance fetches
a plain `optimizer.minimize` step (lines 131-139) that touches neither
counter variable. The loss values returned to the caller are backend
payloads, out of scope. -/
def update (m : ModelState) (batch : List Row) : Except ModelError ModelState :=
  if !m.hasOptimizer then Except.ok m
  else if m.distributed && !m.global_model then
    Except.ok { m with
      global_timestep := m.global_timestep + (batchSize batch : Int),
      global_episode := m.global_episode + (episodeIncrement batch : Int) }
  else if m.distributed && m.global_model && episodeFetchCount batch > 0 then
    Except.error ModelError.attributeError
  else
    Except.ok m

/-- N sequential `update` calls: the fold of `update` over a list of
batches, stopping at the first raised error. -/
def runUpdates (m : ModelState) : List (List Row) → Except ModelError ModelState
  | [] => Except.ok m
  | batch :: rest =>
    match update m batch with
    | Except.ok m2 => runUpdates m2 rest
    | Except.error e => Except.error e

/-- `should_write_summaries` (lines 338-339): `self.writer is not None and
self.timestep > self.last_summary_step + self.summary_interval`. With
`last_summary_step = -inf` (its initial value, line 168, embedded as
`none`) the comparison is true for every finite timestep. -/
def should_write_summaries (m : ModelState) : Bool :=
  m.writerConfigured &&
    (match m.last_summary_step with
     | none => true
     | some l => decide (m.timestep > l + m.summary_interval))

/-- The fetch list entries `update` assembles (line 286 and following); only
the identity of the summary fetch matters here. -/
inductive Fetch where
  | optimizeOp
  | lossOp
  | lossPerInstanceOp
  | incrementEpisodeOp
  | tfSummaries
deriving DecidableEq, Repr

/-- `_maybe_append_tf_summaries` (lines 267-271): appends the merged
summary fetch exactly when `should_write_summaries` holds. -/
def maybe_append_tf_summaries (m : ModelState) (fetches : List Fetch) : List Fetch :=
  if should_write_summaries m then fetches ++ [Fetch.tfSummaries]
  else fetches

/-- Modelled from the spec: `SummarySessionWrapper` is imported from
`tensorforce.util` (line 31) and its code is not under src/; per the spec's
update orchestrator contract it appends the summary fetch to the combined
step via the model's policy and, when a summary was fetched and written,
"after writing, the 'last written at' marker is updated to the current
timestep". -/
def summary_session_step (m : ModelState) (fetches : List Fetch) :
    ModelState × List Fetch :=
  if should_write_summaries m then
    ({ m with last_summary_step := some m.timestep },
      maybe_append_tf_summaries m fetches)
  else
    (m, maybe_append_tf_summaries m fetches)

/-- The claim's emission condition in the spec's own words: a writer is
configured and the current timestep counter exceeds the last point at which
summaries were written "by at least the configured interval", i.e.
`timestep - last >= interval` (with the `-inf` initial marker embedded as
`none`, exceeded by any finite timestep). Kept separate from
`should_write_summaries`, which embeds the source's strict comparison, so
the two can be compared. -/
def specClaimedEmissionCondition (m : ModelState) : Bool :=
  m.writerConfigured &&
    (match m.last_summary_step with
     | none => true
     | some l => decide (m.timestep ≥ l + m.summary_interval))

/-- `add_tf_writer` (lines 183-185): installs a writer and runs
`_init_tf_writer` (with the right arity at this call site), which sets
`last_summary_step = -inf` (line 168). -/
def add_tf_writer (m : ModelState) : ModelState :=
  { m with writerConfigured := true, last_summary_step := none }

/-- The graph nodes of the distributed worker's combined update step,
as built at lines 125-130. -/
inductive GraphOp where
  /-- `self.optimizer.apply_gradients(grads_and_vars=global_gradients)`
  (line 127): applies the locally computed gradients to the global
  parameter set. -/
  | applyGradients
  /-- `self.update_local` (line 125): `tf.group` of `v_local.assign
  (v_global)` over the positionally paired variable lists — the
  resynchronization pull. -/
  | updateLocal
  /-- `self.global_timestep.assign_add(tf.shape(self.reward)[0])`
  (line 129). -/
  | incrTimestep
  /-- `self.optimize = tf.group(...)` of the three ops above (line 126). -/
  | optimizeGroup
deriving DecidableEq, Repr

/-- All four nodes. -/
def allGraphOps : List GraphOp :=
  [GraphOp.applyGradients, GraphOp.updateLocal, GraphOp.incrTimestep,
    GraphOp.optimizeGroup]

/-- The direct control-dependency edges the source creates: `tf.group`
makes the group node depend on each of its inputs (the group completes only
after all inputs have run) and adds no edge between any two inputs.
`controlDep a b = true` means b directly depends on a. -/
def controlDep : GraphOp → GraphOp → Bool
  | GraphOp.applyGradients, GraphOp.optimizeGroup => true
  | GraphOp.updateLocal, GraphOp.optimizeGroup => true
  | GraphOp.incrTimestep, GraphOp.optimizeGroup => true
  | _, _ => false

/-- Dependency paths of length at most `fuel`. -/
def seqBeforeFuel : Nat → GraphOp → GraphOp → Bool
  | 0, _, _ => false
  | Nat.succ n, a, b =>
    controlDep a b || allGraphOps.any (fun c => controlDep a c && seqBeforeFuel n c b)

/-- `a` is sequenced before `b`: a control-dependency path leads from `a`
to `b` (paths in a 4-node graph never need more than 4 edges). -/
def sequencedBefore (a b : GraphOp) : Bool :=
  seqBeforeFuel allGraphOps.length a b

/-- Every op of the list has all its control dependencies at earlier
positions. -/
def depsRespected : List GraphOp → Bool
  | [] => true
  | op :: rest => rest.all (fun later => !controlDep later op) && depsRespected rest

/-- A schedule the backend executor is permitted to use for one combined
step: each node exactly once, in any order consistent with the
control-dependency edges. -/
def validSchedule (sched : List GraphOp) : Bool :=
  allGraphOps.all (fun op => sched.count op == 1) && depsRespected sched

/-- The variable state the combined step touches, with the positionally
paired parameter sets abstracted to one representative value each. -/
structure SyncState where
  localParams : Int
  globalParams : Int
  timestepVar : Int
deriving DecidableEq, Repr

/-- Effect of each node on the variables, for a step whose locally computed
gradient contribution is `g` and whose fed batch size is `b`:
`apply_gradients` folds the contribution into the global parameters (the
optimizer's arithmetic is abstracted to adding `g`), `update_local` assigns
the current global values onto the local variables, `assign_add` advances
the timestep variable, and the group node itself is a no-op. -/
def runGraphOp (g b : Int) (s : SyncState) : GraphOp → SyncState
  | GraphOp.applyGradients => { s with globalParams := s.globalParams + g }
  | GraphOp.updateLocal => { s with localParams := s.globalParams }
  | GraphOp.incrTimestep => { s with timestepVar := s.timestepVar + b }
  | GraphOp.optimizeGroup => s

/-- Run one combined step under a given schedule. -/
def runSchedule (g b : Int) (sched : List GraphOp) (s : SyncState) : SyncState :=
  sched.foldl (runGraphOp g b) s

/-- A schedule that applies the worker's gradients before pulling. -/
def pushThenPullSchedule : List GraphOp :=
  [GraphOp.applyGradients, GraphOp.updateLocal, GraphOp.incrTimestep,
    GraphOp.optimizeGroup]

/-- A schedule that pulls before the worker's gradients are applied. -/
def pullThenPushSchedule : List GraphOp :=
  [GraphOp.updateLocal, GraphOp.applyGradients, GraphOp.incrTimestep,
    GraphOp.optimizeGroup]

deriving instance DecidableEq for Except

/-- A subclass declaration supporting both action kinds and declaring two
recurrent internal slots with initial values 3 and 7. -/
def demoDecl : ClassDecl :=
  { allows_discrete_actions := some true
    allows_continuous_actions := some true
    internal_slot_inits := [3, 7] }

/-- A well-formed standalone configuration. -/
def demoStandaloneConfig : Config :=
  { distributed := false
    global_model := false
    optimizer := some "adam"
    session := none
    tf_summary := none
    tf_summary_level := 0
    tf_summary_interval := 1000
    actions := [{ continuous := false }] }

/-- `demoStandaloneConfig` with no optimizer. -/
def demoNoOptimizerConfig : Config :=
  { demoStandaloneConfig with optimizer := none }

/-- `demoStandaloneConfig` with summary output configured. -/
def demoSummaryConfig : Config :=
  { demoStandaloneConfig with tf_summary := some "logs" }

/-- A distributed worker configuration without an optimizer. -/
def demoWorkerNoOptimizerConfig : Config :=
  { demoStandaloneConfig with distributed := true, optimizer := none }

/-- The state `construct` yields for `demoDecl`/`demoStandaloneConfig`. -/
def demoStandaloneModel : ModelState :=
  { distributed := false
    global_model := false
    hasOptimizer := true
    session := some 0
    writerConfigured := false
    global_timestep := 0
    global_episode := 0
    timestep := 0
    last_summary_step := none
    summary_interval := 1000
    internal_inits := [3, 7] }

/-- A distributed worker state with nonzero counters. -/
def demoWorkerState : ModelState :=
  { distributed := true
    global_model := false
    hasOptimizer := true
    session := some 0
    writerConfigured := false
    global_timestep := 100
    global_episode := 4
    timestep := 9
    last_summary_step := none
    summary_interval := 1000
    internal_inits := [] }

/-- Two batches: sizes 2 and 1, with one true terminal flag in each. -/
def demoBatches : List (List Row) :=
  [[{ reward := 1, terminal := true }, { reward := 0, terminal := false }],
    [{ reward := 2, terminal := true }]]

/-- A writer-configured state sitting exactly at the claimed emission
boundary: `timestep - last_summary_step = summary_interval`. -/
def boundaryState : ModelState :=
  { distributed := false
    global_model := false
    hasOptimizer := true
    session := some 0
    writerConfigured := true
    global_timestep := 0
    global_episode := 0
    timestep := 5
    last_summary_step := some 0
    summary_interval := 5
    internal_inits := [] }

/-- The episode-counter effect of one `update` equals the batch's true
terminal count outright: when no terminal flag is true, the op is never
fetched and the count is 0 anyway. -/
theorem episodeIncrement_eq_terminalCount (batch : List Row) :
    episodeIncrement batch = terminalCount batch := by
  unfold episodeIncrement episodeFetchCount
  split
  case isTrue => rfl
  case isFalse h => omega

/-- One `update` on a distributed worker with an optimizer succeeds and
advances the two global counters, leaving every other field unchanged. -/
theorem update_worker (m : ModelState) (batch : List Row)
    (hd : m.distributed = true) (hg : m.global_model = false)
    (ho : m.hasOptimizer = true) :
    update m batch = Except.ok { m with
      global_timestep := m.global_timestep + (batchSize batch : Int)
      global_episode := m.global_episode + (terminalCount batch : Int) } := by
  simp [update, hd, hg, ho, episodeIncrement_eq_terminalCount]

/-- Folding `update` over a batch list on a distributed worker adds the
batch sizes to the timestep counter and the terminal counts to the episode
counter. -/
theorem runUpdates_worker (bs : List (List Row)) (m : ModelState)
    (hd : m.distributed = true) (hg : m.global_model = false)
    (ho : m.hasOptimizer = true) :
    runUpdates m bs = Except.ok { m with
      global_timestep := m.global_timestep + ((bs.map (fun b => (batchSize b : Int))).sum)
      global_episode := m.global_episode + ((bs.map (fun b => (terminalCount b : Int))).sum) } := by
  induction bs generalizing m with
  | nil => simp [runUpdates]
  | cons b rest ih =>
    rw [runUpdates, update_worker m b hd hg ho]
    dsimp only
    rw [ih { m with
      global_timestep := m.global_timestep + (batchSize b : Int)
      global_episode := m.global_episode + (terminalCount b : Int) } hd hg ho]
    simp [add_assoc]

/-- An instance whose configuration already has `global_model` set never
takes the worker branch, so its construction is `constructNonWorker`. -/
theorem construct_global (decl : ClassDecl) (cfg : Config)
    (h : cfg.global_model = true) :
    construct decl cfg = constructNonWorker decl cfg := by
  simp [construct, constructNonWorker, h]

/-- Inversion for `constructRest`: a successfully built instance is the base
state, with the default session installed exactly in standalone mode. -/
theorem constructRest_ok_shape (decl : ClassDecl) (cfg : Config) (m : ModelState)
    (h : constructRest decl cfg = Except.ok m) :
    m = if cfg.distributed then mkBaseState decl cfg
        else { mkBaseState decl cfg with session := some 0 } := by
  unfold constructRest at h
  cases hA : checkActions decl cfg.actions with
  | error e => rw [hA] at h; exact Except.noConfusion h
  | ok u =>
    rw [hA] at h
    by_cases ho : (!(cfg.optimizer.isSome || (!cfg.distributed || cfg.global_model))) = true
    · rw [if_pos ho] at h; exact Except.noConfusion h
    · rw [if_neg ho] at h
      by_cases hs : (cfg.tf_summary.isSome && !(initTfWriterCallArgCount == initTfWriterParamCount)) = true
      · rw [if_pos hs] at h; exact Except.noConfusion h
      · rw [if_neg hs] at h
        by_cases hd : cfg.distributed = true
        · rw [if_pos hd]
          rw [if_neg (by simp [hd])] at h
          exact (Except.ok.inj h).symm
        · rw [if_neg hd]
          rw [Bool.not_eq_true] at hd
          rw [if_pos (by simp [hd])] at h
          simp only [set_session, mkBaseState, Option.isSome_none] at h
          simp only [Bool.false_eq_true, if_false] at h
          exact (Except.ok.inj h).symm

/-- A successful `construct` went through `constructRest` with the same
result. -/
theorem construct_ok_rest (decl : ClassDecl) (cfg : Config) (m : ModelState)
    (h : construct decl cfg = Except.ok m) :
    constructRest decl cfg = Except.ok m := by
  unfold construct at h
  cases h1 : assertActionKindsDeclared decl with
  | error e => rw [h1] at h; exact Except.noConfusion h
  | ok u =>
    rw [h1] at h
    cases h2 : assertStandaloneConfig cfg with
    | error e => rw [h2] at h; exact Except.noConfusion h
    | ok u2 =>
      rw [h2] at h
      by_cases hb : (cfg.distributed && !cfg.global_model) = true
      · rw [if_pos hb] at h
        cases h3 : constructNonWorker decl (globalConfigOf cfg) with
        | error e => rw [h3] at h; exact Except.noConfusion h
        | ok g => rw [h3] at h; exact h
      · rw [if_neg hb] at h; exact h

/-- Inversion for `construct`: the state a successful construction
returns. -/
theorem construct_ok_shape (decl : ClassDecl) (cfg : Config) (m : ModelState)
    (h : construct decl cfg = Except.ok m) :
    m = if cfg.distributed then mkBaseState decl cfg
        else { mkBaseState decl cfg with session := some 0 } :=
  constructRest_ok_shape decl cfg m (construct_ok_rest decl cfg m h)

/-- Evaluation of `constructNonWorker` on a distributed configuration whose
checks all pass. -/
theorem constructNonWorker_distributed_ok (decl : ClassDecl) (cfg : Config)
    (hdk : decl.allows_discrete_actions.isSome = true)
    (hck : decl.allows_continuous_actions.isSome = true)
    (ha : checkActions decl cfg.actions = Except.ok ())
    (hw : cfg.tf_summary = none)
    (hdist : cfg.distributed = true)
    (hopt : (cfg.optimizer.isSome || (!cfg.distributed || cfg.global_model)) = true) :
    constructNonWorker decl cfg = Except.ok (mkBaseState decl cfg) := by
  unfold constructNonWorker
  rw [show assertActionKindsDeclared decl = Except.ok () from by
    simp [assertActionKindsDeclared, hdk, hck]]
  rw [show assertStandaloneConfig cfg = Except.ok () from by
    simp [assertStandaloneConfig, hdist]]
  unfold constructRest
  rw [ha]
  rw [if_neg (show ¬((!(cfg.optimizer.isSome || (!cfg.distributed || cfg.global_model))) = true) from by
    simp [hopt])]
  rw [if_neg (show ¬((cfg.tf_summary.isSome && !(initTfWriterCallArgCount == initTfWriterParamCount)) = true) from by
    simp [hw])]
  rw [if_neg (show ¬((!cfg.distributed) = true) from by simp [hdist])]

/-- The worker's nested global model builds successfully whenever the shared
checks pass and no summary directory is configured: it never trips the
optimizer assertion even though its optimizer is removed. -/
theorem constructNonWorker_global_ok (decl : ClassDecl) (cfg : Config)
    (hd : decl.allows_discrete_actions.isSome = true)
    (hc : decl.allows_continuous_actions.isSome = true)
    (ha : checkActions decl cfg.actions = Except.ok ())
    (hw : cfg.tf_summary = none)
    (hdist : cfg.distributed = true) :
    constructNonWorker decl (globalConfigOf cfg) =
      Except.ok (mkBaseState decl (globalConfigOf cfg)) := by
  unfold constructNonWorker
  rw [show assertActionKindsDeclared decl = Except.ok () from by
    simp [assertActionKindsDeclared, hd, hc]]
  rw [show assertStandaloneConfig (globalConfigOf cfg) = Except.ok () from by
    simp [assertStandaloneConfig, globalConfigOf, hdist]]
  unfold constructRest
  rw [show checkActions decl (globalConfigOf cfg).actions = Except.ok () from by
    simpa [globalConfigOf] using ha]
  simp [globalConfigOf, hdist, hw]

/-- When the action checks pass, `constructRest` raises the optimizer
assertion exactly for an optimizer-less distributed worker: the line-118
disjunction `self.optimizer or (not config.distributed or
config.global_model)` passes for every non-distributed instance and for
global holders. -/
theorem constructRest_error_optimizer_iff (decl : ClassDecl) (cfg : Config)
    (ha : checkActions decl cfg.actions = Except.ok ()) :
    (constructRest decl cfg = Except.error ModelError.optimizerMissing ↔
      (cfg.optimizer = none ∧ cfg.distributed = true ∧ cfg.global_model = false)) := by
  unfold constructRest
  rw [ha]
  by_cases ho : (!(cfg.optimizer.isSome || (!cfg.distributed || cfg.global_model))) = true
  · rw [if_pos ho]
    constructor
    · intro _
      refine ⟨?_, ?_, ?_⟩
      · cases hopt : cfg.optimizer with
        | none => rfl
        | some v => exact absurd ho (by simp [hopt])
      · cases hB : cfg.distributed with
        | true => rfl
        | false => exact absurd ho (by simp [hB])
      · cases hC : cfg.global_model with
        | false => rfl
        | true => exact absurd ho (by simp [hC])
    · intro _; rfl
  · rw [if_neg ho]
    constructor
    · intro hcontra
      by_cases hs : (cfg.tf_summary.isSome && !(initTfWriterCallArgCount == initTfWriterParamCount)) = true
      · rw [if_pos hs] at hcontra; exact absurd (Except.error.inj hcontra) (by simp)
      · rw [if_neg hs] at hcontra
        by_cases hdd : cfg.distributed = true
        · rw [if_neg (by simp [hdd])] at hcontra; exact Except.noConfusion hcontra
        · rw [Bool.not_eq_true] at hdd
          rw [if_pos (by simp [hdd])] at hcontra
          simp only [set_session, mkBaseState, Option.isSome_none] at hcontra
          simp only [Bool.false_eq_true, if_false] at hcontra
          exact Except.noConfusion hcontra
    · intro hrhs
      refine absurd ?_ ho
      rw [show cfg.optimizer.isSome = false from by simp [hrhs.1], hrhs.2.1, hrhs.2.2]
      rfl

/-- A standalone configuration whose checks pass constructs successfully and
installs the default session, with or without an optimizer: the line-118
assertion is satisfied by `not config.distributed` alone. -/
theorem constructRest_standalone_ok (decl : ClassDecl) (cfg : Config)
    (ha : checkActions decl cfg.actions = Except.ok ())
    (hw : cfg.tf_summary = none)
    (hd : cfg.distributed = false) :
    constructRest decl cfg = Except.ok { mkBaseState decl cfg with session := some 0 } := by
  unfold constructRest
  rw [ha]
  rw [if_neg (show ¬((!(cfg.optimizer.isSome || (!cfg.distributed || cfg.global_model))) = true) from by
    simp [hd])]
  rw [if_neg (show ¬((cfg.tf_summary.isSome && !(initTfWriterCallArgCount == initTfWriterParamCount)) = true) from by
    simp [hw])]
  rw [if_pos (show (!cfg.distributed) = true from by simp [hd])]
  simp [set_session, mkBaseState]

/-- C1 (amended): within the worker's combined update step (lines 125-130),
`tf.group` sequences each of the three grouped operations before the
completion of the step, but imposes no ordering between the gradient
application to the global parameters and the local resynchronization pull;
under a dependency-respecting schedule in which the apply runs first, the
worker's local parameters do end up carrying its contribution. -/
theorem C1_combined_step_group_ordering :
    sequencedBefore GraphOp.applyGradients GraphOp.optimizeGroup = true
    ∧ sequencedBefore GraphOp.updateLocal GraphOp.optimizeGroup = true
    ∧ sequencedBefore GraphOp.incrTimestep GraphOp.optimizeGroup = true
    ∧ sequencedBefore GraphOp.applyGradients GraphOp.updateLocal = false
    ∧ sequencedBefore GraphOp.updateLocal GraphOp.applyGradients = false
    ∧ validSchedule pushThenPullSchedule = true
    ∧ (runSchedule 1 1 pushThenPullSchedule
        { localParams := 5, globalParams := 10, timestepVar := 0 }).localParams = 11 := by
  decide

/-- C1 counterexample: the claim that gradient application is sequenced
before the resynchronization pull is false for the graph the source builds:
no dependency path runs from the apply node to the pull node, and the
pull-first schedule is dependency-respecting yet leaves the local parameters
at the pre-apply global value 10 while the global parameters already carry
the worker's contribution (11). -/
theorem C1_pull_before_push_counterexample :
    sequencedBefore GraphOp.applyGradients GraphOp.updateLocal = false
    ∧ validSchedule pullThenPushSchedule = true
    ∧ (runSchedule 1 1 pullThenPushSchedule
        { localParams := 5, globalParams := 10, timestepVar := 0 }).localParams = 10
    ∧ (runSchedule 1 1 pullThenPushSchedule
        { localParams := 5, globalParams := 10, timestepVar := 0 }).globalParams = 11 := by
  decide

/-- C2: on a distributed worker, N sequential `update` calls advance the
global timestep counter by exactly the sum of the batch sizes, and
`get_action` (which advances only the Python-side call counter) leaves the
global timestep counter unchanged. -/
theorem C2_timestep_advances_by_batch_sizes (m : ModelState) (bs : List (List Row))
    (hd : m.distributed = true) (hg : m.global_model = false)
    (ho : m.hasOptimizer = true) :
    (∃ m2, runUpdates m bs = Except.ok m2 ∧
        m2.global_timestep = m.global_timestep + ((bs.map (fun b => (batchSize b : Int))).sum))
    ∧ ∀ run, ((get_action m run).1).global_timestep = m.global_timestep :=
  ⟨⟨_, runUpdates_worker bs m hd hg ho, rfl⟩, fun _ => rfl⟩

/-- C2 witness: the concrete worker at timestep 100 reaches 100 + (2 + 1)
after the two demo batches. -/
theorem C2_timestep_advances_by_batch_sizes_witness :
    (∃ m2, runUpdates demoWorkerState demoBatches = Except.ok m2 ∧
        m2.global_timestep = demoWorkerState.global_timestep +
          ((demoBatches.map (fun b => (batchSize b : Int))).sum))
    ∧ ∀ run, ((get_action demoWorkerState run).1).global_timestep =
        demoWorkerState.global_timestep :=
  C2_timestep_advances_by_batch_sizes demoWorkerState demoBatches rfl rfl rfl

/-- C3: on a distributed worker, each `update` advances the global episode
counter by exactly the count of true terminal flags in its batch — zero when
none is true — so N updates add the total terminal count. -/
theorem C3_episode_advances_by_terminal_count (m : ModelState)
    (hd : m.distributed = true) (hg : m.global_model = false)
    (ho : m.hasOptimizer = true) :
    (∀ batch, update m batch = Except.ok { m with
        global_timestep := m.global_timestep + (batchSize batch : Int)
        global_episode := m.global_episode + (terminalCount batch : Int) })
    ∧ ∀ bs, ∃ m2, runUpdates m bs = Except.ok m2 ∧
        m2.global_episode = m.global_episode + ((bs.map (fun b => (terminalCount b : Int))).sum) :=
  ⟨fun batch => update_worker m batch hd hg ho,
    fun bs => ⟨_, runUpdates_worker bs m hd hg ho, rfl⟩⟩

/-- C3 witness: the demo worker at episode 4 reaches 4 + (1 + 1) after the
two demo batches, one true terminal in each. -/
theorem C3_episode_advances_by_terminal_count_witness :
    (∀ batch, update demoWorkerState batch = Except.ok { demoWorkerState with
        global_timestep := demoWorkerState.global_timestep + (batchSize batch : Int)
        global_episode := demoWorkerState.global_episode + (terminalCount batch : Int) })
    ∧ ∀ bs, ∃ m2, runUpdates demoWorkerState bs = Except.ok m2 ∧
        m2.global_episode = demoWorkerState.global_episode +
          ((bs.map (fun b => (terminalCount b : Int))).sum) :=
  C3_episode_advances_by_terminal_count demoWorkerState rfl rfl rfl

/-- C4 counterexample: at the boundary where the timestep exceeds the
last-written point by exactly the interval, the claimed condition ("by at
least the configured interval") holds, yet the source's strict comparison
declines and no summary fetch is appended. -/
theorem C4_boundary_counterexample :
    specClaimedEmissionCondition boundaryState = true
    ∧ should_write_summaries boundaryState = false
    ∧ maybe_append_tf_summaries boundaryState [Fetch.optimizeOp] = [Fetch.optimizeOp] := by
  decide

/-- C4 (amended): a summary fetch is appended to the combined step if and
only if a writer is configured and the current timestep counter exceeds the
last-written point by strictly more than the configured interval (the
`-inf` initial marker is exceeded by every timestep); the step either
appends exactly the summary fetch or leaves the fetch list unchanged, and
after a write the last-written marker is set to the current timestep. -/
theorem C4_summary_emission_policy (m : ModelState) (fetches : List Fetch) :
    ((summary_session_step m fetches).2 = fetches ++ [Fetch.tfSummaries] ↔
      (m.writerConfigured = true ∧
        ∀ l, m.last_summary_step = some l → m.timestep > l + m.summary_interval))
    ∧ ((summary_session_step m fetches).2 = fetches ↔ should_write_summaries m = false)
    ∧ ((summary_session_step m fetches).1.last_summary_step =
        if should_write_summaries m then some m.timestep else m.last_summary_step) := by
  have h2 : (summary_session_step m fetches).2 = maybe_append_tf_summaries m fetches := by
    unfold summary_session_step
    split <;> rfl
  have h1 : (summary_session_step m fetches).1.last_summary_step =
      if should_write_summaries m then some m.timestep else m.last_summary_step := by
    unfold summary_session_step
    by_cases hsw : should_write_summaries m = true
    · rw [if_pos hsw, if_pos hsw]
    · rw [if_neg hsw, if_neg hsw]
  refine ⟨?_, ?_, h1⟩
  · rw [h2]
    unfold maybe_append_tf_summaries
    by_cases hsw : should_write_summaries m = true
    · rw [if_pos hsw]
      refine ⟨fun _ => ?_, fun _ => rfl⟩
      unfold should_write_summaries at hsw
      rcases Bool.and_eq_true_iff.mp hsw with ⟨hwr, hmatch⟩
      refine ⟨hwr, fun l hl => ?_⟩
      rw [hl] at hmatch
      exact of_decide_eq_true hmatch
    · rw [if_neg hsw]
      constructor
      · intro habs
        exact absurd (congrArg List.length habs) (by simp)
      · rintro ⟨hwr, hall⟩
        refine absurd ?_ hsw
        unfold should_write_summaries
        rw [hwr, Bool.true_and]
        cases hls : m.last_summary_step with
        | none => rfl
        | some l => exact decide_eq_true (hall l hls)
  · rw [h2]
    unfold maybe_append_tf_summaries
    by_cases hsw : should_write_summaries m = true
    · rw [if_pos hsw]
      constructor
      · intro habs
        exact absurd (congrArg List.length habs) (by simp)
      · intro hf
        rw [hsw] at hf
        exact Bool.noConfusion hf
    · rw [if_neg hsw]
      simp [Bool.not_eq_true] at hsw
      simp [hsw]

/-- C5 counterexample: the claim that every instance other than a
distributed global holder must have an optimizer is false of the code — a
standalone configuration without an optimizer passes the line-118 assertion
through its `not config.distributed` disjunct and constructs successfully,
with a session installed; in particular construction does not raise the
missing-optimizer error. -/
theorem C5_standalone_without_optimizer_counterexample :
    demoNoOptimizerConfig.optimizer = none
    ∧ demoNoOptimizerConfig.distributed = false
    ∧ construct demoDecl demoNoOptimizerConfig =
        Except.ok { mkBaseState demoDecl demoNoOptimizerConfig with session := some 0 }
    ∧ construct demoDecl demoNoOptimizerConfig ≠ Except.error ModelError.optimizerMissing := by
  refine ⟨rfl, rfl, by decide, by decide⟩

/-- C5 (amended): once the earlier construction checks pass (action kinds
declared, standalone configuration consistent, action kinds supported, no
summary directory), construction raises the missing-optimizer configuration
error exactly when no optimizer is configured and the instance is a
distributed worker (distributed and not the global holder); an
optimizer-less distributed global holder and an optimizer-less standalone
model both construct successfully. -/
theorem C5_optimizer_required_only_for_workers (decl : ClassDecl) (cfg : Config)
    (hdk : decl.allows_discrete_actions.isSome = true)
    (hck : decl.allows_continuous_actions.isSome = true)
    (hs : cfg.distributed = false → cfg.global_model = false ∧ cfg.session = none)
    (ha : checkActions decl cfg.actions = Except.ok ())
    (hw : cfg.tf_summary = none) :
    (construct decl cfg = Except.error ModelError.optimizerMissing ↔
      (cfg.optimizer = none ∧ cfg.distributed = true ∧ cfg.global_model = false))
    ∧ (cfg.optimizer = none → cfg.distributed = true → cfg.global_model = true →
        construct decl cfg = Except.ok (mkBaseState decl cfg))
    ∧ (cfg.optimizer = none → cfg.distributed = false →
        construct decl cfg = Except.ok { mkBaseState decl cfg with session := some 0 }) := by
  have hA : assertActionKindsDeclared decl = Except.ok () := by
    simp [assertActionKindsDeclared, hdk, hck]
  have hS : assertStandaloneConfig cfg = Except.ok () := by
    by_cases hd : cfg.distributed = true
    · simp [assertStandaloneConfig, hd]
    · rw [Bool.not_eq_true] at hd
      rcases hs (by simp [hd]) with ⟨hg, hsess⟩
      simp [assertStandaloneConfig, hd, hg, hsess]
  refine ⟨?_, ?_, ?_⟩
  · by_cases hd : cfg.distributed = true
    · by_cases hg : cfg.global_model = true
      · rw [construct_global decl cfg hg]
        rw [constructNonWorker_distributed_ok decl cfg hdk hck ha hw hd (by simp [hg])]
        simp [hg]
      · rw [Bool.not_eq_true] at hg
        unfold construct
        rw [hA, hS, if_pos (by simp [hd, hg])]
        rw [constructNonWorker_global_ok decl cfg hdk hck ha hw hd]
        rw [constructRest_error_optimizer_iff decl cfg ha]
    · rw [Bool.not_eq_true] at hd
      unfold construct
      rw [hA, hS, if_neg (by simp [hd])]
      rw [constructRest_error_optimizer_iff decl cfg ha]
  · intro _ hd hg
    rw [construct_global decl cfg hg]
    exact constructNonWorker_distributed_ok decl cfg hdk hck ha hw hd (by simp [hg])
  · intro _ hd
    unfold construct
    rw [hA, hS, if_neg (by simp [hd])]
    exact constructRest_standalone_ok decl cfg ha hw hd

/-- C5 witness: the distributed worker demo configuration without an
optimizer is refused with the missing-optimizer error. -/
theorem C5_optimizer_required_only_for_workers_witness :
    (construct demoDecl demoWorkerNoOptimizerConfig =
        Except.error ModelError.optimizerMissing ↔
      (demoWorkerNoOptimizerConfig.optimizer = none ∧
        demoWorkerNoOptimizerConfig.distributed = true ∧
        demoWorkerNoOptimizerConfig.global_model = false))
    ∧ (demoWorkerNoOptimizerConfig.optimizer = none →
        demoWorkerNoOptimizerConfig.distributed = true →
        demoWorkerNoOptimizerConfig.global_model = true →
        construct demoDecl demoWorkerNoOptimizerConfig =
          Except.ok (mkBaseState demoDecl demoWorkerNoOptimizerConfig))
    ∧ (demoWorkerNoOptimizerConfig.optimizer = none →
        demoWorkerNoOptimizerConfig.distributed = false →
        construct demoDecl demoWorkerNoOptimizerConfig =
          Except.ok { mkBaseState demoDecl demoWorkerNoOptimizerConfig with session := some 0 }) :=
  C5_optimizer_required_only_for_workers demoDecl demoWorkerNoOptimizerConfig rfl rfl
    (by decide) rfl rfl

/-- C6: the summary-initialization path of `__init__` raises on every
configuration with `tf_summary` set — standalone or distributed worker —
because line 147 passes `_init_tf_writer` two positional arguments while its
definition at line 161 accepts one, a `TypeError` at construction. -/
theorem C6_summary_construction_raises_type_error :
    initTfWriterCallArgCount ≠ initTfWriterParamCount
    ∧ construct demoDecl demoSummaryConfig = Except.error ModelError.initTfWriterTypeError
    ∧ construct demoDecl { demoSummaryConfig with distributed := true } =
        Except.error ModelError.initTfWriterTypeError := by
  refine ⟨by decide, by decide, by decide⟩

/-- C7: a class that declares neither `allows_discrete_actions` nor
`allows_continuous_actions` fails the very first construction assertion for
every configuration, and no model state is returned. -/
theorem C7_undeclared_action_kinds_fail_construction (inits : List Int) (cfg : Config) :
    construct { allows_discrete_actions := none
                allows_continuous_actions := none
                internal_slot_inits := inits } cfg =
      Except.error ModelError.actionKindsUndeclared := rfl

/-- C8: `reset` on any successfully constructed model returns exactly the
declared initial values of the recurrent internal slots, one per declared
slot. -/
theorem C8_reset_returns_declared_initial_values (decl : ClassDecl) (cfg : Config)
    (m : ModelState) (h : construct decl cfg = Except.ok m) :
    reset m = decl.internal_slot_inits ∧
    (reset m).length = decl.internal_slot_inits.length := by
  have hshape := construct_ok_shape decl cfg m h
  have hr : reset m = decl.internal_slot_inits := by
    rw [hshape]
    by_cases hd : cfg.distributed = true
    · rw [if_pos hd]; rfl
    · rw [if_neg hd]; rfl
  exact ⟨hr, by rw [hr]⟩

/-- C8 witness: the standalone demo model returns its two declared initial
values `[3, 7]`. -/
theorem C8_reset_returns_declared_initial_values_witness :
    reset demoStandaloneModel = demoDecl.internal_slot_inits ∧
    (reset demoStandaloneModel).length = demoDecl.internal_slot_inits.length :=
  C8_reset_returns_declared_initial_values demoDecl demoStandaloneConfig demoStandaloneModel
    (by decide)

/-- C9: `set_session` fails whenever a session is already installed, so a
session can never be replaced; in particular a successful `set_session`
makes any further call fail, and a standalone construction (which installs
the default session at lines 156-158) leaves the model refusing any further
`set_session`. -/
theorem C9_session_set_at_most_once :
    (∀ (m : ModelState) (s : Nat), m.session.isSome = true →
        set_session m s = Except.error ModelError.sessionAlreadySet)
    ∧ (∀ (m m2 : ModelState) (s s2 : Nat), set_session m s = Except.ok m2 →
        set_session m2 s2 = Except.error ModelError.sessionAlreadySet)
    ∧ (∀ (decl : ClassDecl) (cfg : Config) (m : ModelState) (s : Nat),
        construct decl cfg = Except.ok m → cfg.distributed = false →
        set_session m s = Except.error ModelError.sessionAlreadySet) := by
  have base : ∀ (m : ModelState) (s : Nat), m.session.isSome = true →
      set_session m s = Except.error ModelError.sessionAlreadySet := by
    intro m s h
    simp [set_session, h]
  refine ⟨base, ?_, ?_⟩
  · intro m m2 s s2 h
    have hm : m2 = { m with session := some s } := by
      unfold set_session at h
      by_cases hs : m.session.isSome = true
      · rw [if_pos hs] at h; exact Except.noConfusion h
      · rw [if_neg hs] at h; exact (Except.ok.inj h).symm
    rw [hm]
    exact base _ s2 rfl
  · intro decl cfg m s hc hd
    have hshape := construct_ok_shape decl cfg m hc
    rw [hd] at hshape
    simp only [Bool.false_eq_true, if_false] at hshape
    rw [hshape]
    exact base _ s rfl

/-- C10: `get_action` increments the call counter before the backend
executes, so even a call whose backend execution fails leaves the counter
advanced by one; for every outcome the counter is advanced by one. -/
theorem C10_get_action_increments_before_run (m : ModelState) (e : ModelError) :
    ((get_action m (Except.error e)).1).timestep = m.timestep + 1
    ∧ (get_action m (Except.error e)).2 = Except.error e
    ∧ ∀ run, ((get_action m run).1).timestep = m.timestep + 1 :=
  ⟨rfl, rfl, fun _ => rfl⟩
